import Mathlib

/-!
Verification of the GenzAI frontend request-orchestration layer.

The repository holds a thin API wrapper (frontend/lib/api.ts) and three
variants of a single-page chat component, each with handlers that append
to an in-memory message log, fire HTTP requests and toggle flags:

* the component embedded after the wrapper in frontend/lib/api.ts, which
  gates every handler on a backendOnline flag set by a health probe
  (definitions named without a prefix below);
* the standalone frontend/app/page.tsx variant, which has no online flag
  and posts an extra stream field (definitions prefixed with page);
* the src/unnamed/part_000 variant, which has no online flag, never
  inspects response.ok, and interpolates the environment value into the
  URL with no fallback (definitions prefixed with part000).

Each handler is embedded as a function from the pre-call state and the
modelled outcome of its fetch to the ordered list of events it performs:
message-log appends, state-setter calls, HTTP requests and audio playback.
Running the events over a state gives the post-call state, and the events
carry the order and the set of requests issued.
-/

/-- A JSON scalar as used in the request bodies of this frontend. -/
inductive JsonVal where
  | str (s : String)
  | bool (b : Bool)
deriving DecidableEq, Repr

/-- One chat message, mirroring the Message interface of the component:
role, content, optional source and optional imageUrl. -/
structure Message where
  role : String
  content : String
  source : Option String := none
  imageUrl : Option String := none
deriving DecidableEq, Repr

/-- The component state touched by the handlers: the message log, the
draft input, the loading flag, the online flag, the connection-testing
flag, and the streaming fields of the standalone page variant. -/
structure AppState where
  messages : List Message
  input : String
  isLoading : Bool
  backendOnline : Bool
  connectionTesting : Bool
  streaming : Bool
  currentStream : String
deriving DecidableEq, Repr

/-- An HTTP request as issued by fetch: URL, method and the fields of the
JSON body in the order they appear in the source literal. -/
structure Request where
  url : String
  method : String
  body : List (String × JsonVal)
deriving DecidableEq, Repr

/-- One observable step of a handler: a state-setter call, an HTTP
request, or audio playback. -/
inductive Event where
  | appendMessage (m : Message)
  | setInput (v : String)
  | setLoading (b : Bool)
  | setOnline (b : Bool)
  | setTesting (b : Bool)
  | setStreaming (b : Bool)
  | setCurrentStream (v : String)
  | request (r : Request)
  | playAudio
deriving DecidableEq, Repr

/-- Effect of one event on the component state.  The functional setters
of the source (setMessages with prev ++ [m], setInput, setIsLoading,
setBackendOnline, setConnectionTesting, setStreaming, setCurrentStream)
become field updates; a request or playback leaves the state unchanged. -/
def applyEvent (s : AppState) : Event → AppState
  | .appendMessage m => { s with messages := s.messages ++ [m] }
  | .setInput v => { s with input := v }
  | .setLoading b => { s with isLoading := b }
  | .setOnline b => { s with backendOnline := b }
  | .setTesting b => { s with connectionTesting := b }
  | .setStreaming b => { s with streaming := b }
  | .setCurrentStream v => { s with currentStream := v }
  | .request _ => s
  | .playAudio => s

/-- Run a list of events over a state, in order. -/
def run (s : AppState) (es : List Event) : AppState :=
  es.foldl applyEvent s

/-- The requests issued by a list of events, in order. -/
def requestsOf (es : List Event) : List Request :=
  es.filterMap fun e => match e with
    | .request r => some r
    | _ => none

/-- JavaScript trim on a string: drop whitespace characters from both
ends.  Written by structural recursion over the character list so that
concrete instances evaluate inside the kernel. -/
def jsTrim (s : String) : String :=
  String.mk (((s.data.dropWhile Char.isWhitespace).reverse.dropWhile
      Char.isWhitespace).reverse)

/-- JavaScript a-or-else-b on an optional environment string: undefined
and the empty string are falsy, so both fall back to the default. -/
def jsOr (env : Option String) (dflt : String) : String :=
  match env with
  | none => dflt
  | some v => if v = "" then dflt else v

/-- JavaScript template-literal interpolation of an optional string: an
undefined value prints as the text undefined. -/
def jsInterp (env : Option String) : String :=
  match env with
  | none => "undefined"
  | some v => v

/-- The parsed JSON body the chat handlers read from /ask: the answer
field and the optional source field. -/
structure AskBody where
  answer : String
  source : Option String := none
deriving DecidableEq, Repr

/-- The parsed JSON body of /health; data.status is a string when the
field is present. -/
structure HealthBody where
  status : Option String := none
deriving DecidableEq, Repr

/-- The parsed JSON body of /generate-image. -/
structure ImageBody where
  success : Bool
  image_url : Option String := none
  source : Option String := none
  error : Option String := none
deriving DecidableEq, Repr

/-- Outcome of one fetch call: the promise rejects (network failure), or
a response arrives with its ok flag (2xx status) and its body, where
none for the body means response.json() rejects (unparsable body). -/
inductive FetchOutcome (β : Type) where
  | netError
  | response (ok : Bool) (body : Option β)
deriving DecidableEq, Repr

namespace FetchOutcome

/-- A send failure in the sense of the main handler: the fetch threw or
the status was not 2xx. -/
def isFailure {β : Type} : FetchOutcome β → Bool
  | .netError => true
  | .response ok _ => !ok

end FetchOutcome

/-- Base URL of the api.ts wrapper functions: the environment value or
the hardcoded localhost default. -/
def apiBackendURL (env : Option String) : String :=
  jsOr env "http://localhost:8000"

/-- Base URL computed inside each handler of the gated component: the
environment value or the hardcoded onrender host. -/
def backendUrl (env : Option String) : String :=
  jsOr env "https://genz-ai-backend4.onrender.com"

/-- Base URL of the standalone page.tsx variant: the environment value
or the hardcoded localhost default. -/
def pageBackendUrl (env : Option String) : String :=
  jsOr env "http://localhost:8000"

/-- The fixed chat apology appended by the gated component on any send
failure. -/
def chatApologyText : String :=
  "I apologize, but I encountered an error. Please check your internet connection and try again. If the problem persists, the AI services might be temporarily unavailable."

/-- The fixed image-failure apology of both image handlers. -/
def imageApologyText : String :=
  "Image generation failed. Please try again with a different prompt."

/-- The fixed apology of the standalone page.tsx send handler. -/
def pageApologyText : String :=
  "Sorry, I encountered an error. Please check if the backend is running and try again."

/-- The fixed apology of the part_000 send handler. -/
def part000ApologyText : String :=
  "Sorry, I encountered an error. Please try again."

/-- Events of handleSend in the gated component, in source order: return
early unless the trimmed input is truthy and the backend is online;
otherwise append the user message, clear the draft, set loading, POST
the question to /ask, append the assistant message built from the body
on a 2xx parse, the apology on throw, non-2xx or parse failure, and
finally clear loading. -/
def handleSend (env : Option String) (s : AppState)
    (o : FetchOutcome AskBody) : List Event :=
  if jsTrim s.input = "" ∨ s.backendOnline = false then []
  else
    [.appendMessage { role := "user", content := s.input },
     .setInput "",
     .setLoading true,
     .request { url := backendUrl env ++ "/ask", method := "POST",
                body := [("question", .str s.input)] }] ++
    (match o with
     | .response true (some b) =>
         [.appendMessage { role := "assistant", content := b.answer,
                           source := b.source }]
     | _ => [.appendMessage { role := "assistant",
                              content := chatApologyText }]) ++
    [.setLoading false]

/-- Events of handleImageGeneration in the gated component: same gate,
POST prompt and size to /generate-image, read the body without checking
ok; on success append the image message, otherwise (success false, parse
failure or network throw) append the image apology; clear loading. -/
def handleImageGeneration (env : Option String) (s : AppState)
    (o : FetchOutcome ImageBody) : List Event :=
  if jsTrim s.input = "" ∨ s.backendOnline = false then []
  else
    [.appendMessage { role := "user",
                      content := "Generate image: " ++ s.input },
     .setInput "",
     .setLoading true,
     .request { url := backendUrl env ++ "/generate-image",
                method := "POST",
                body := [("prompt", .str s.input),
                         ("size", .str "1024x1024")] }] ++
    (match o with
     | .response _ (some b) =>
         if b.success then
           [.appendMessage { role := "assistant",
                             content := "Here is your generated image:",
                             imageUrl := b.image_url,
                             source := b.source }]
         else
           [.appendMessage { role := "assistant",
                             content := imageApologyText }]
     | _ => [.appendMessage { role := "assistant",
                              content := imageApologyText }]) ++
    [.setLoading false]

/-- Events of handleTextToSpeech in the gated component: return early
when offline; POST text and voice to /text-to-speech and play the audio
when the response is ok; errors are swallowed. -/
def handleTextToSpeech (env : Option String) (s : AppState)
    (text : String) (o : FetchOutcome Unit) : List Event :=
  if s.backendOnline = false then []
  else
    [.request { url := backendUrl env ++ "/text-to-speech",
                method := "POST",
                body := [("text", .str text),
                         ("voice_id", .str "Rachel")] }] ++
    (match o with
     | .response true _ => [.playAudio]
     | _ => [])

/-- Events of the mount-time connection probe testBackendConnection: set
testing, GET /health, set online to whether the parsed body has status
healthy; any throw sets online false; finally clear testing. -/
def testBackendConnection (env : Option String)
    (o : FetchOutcome HealthBody) : List Event :=
  [.setTesting true,
   .request { url := backendUrl env ++ "/health", method := "GET",
              body := [] }] ++
  (match o with
   | .response _ (some b) => [.setOnline (b.status == some "healthy")]
   | _ => [.setOnline false]) ++
  [.setTesting false]

/-- Events of handleSend in the standalone page.tsx variant: gated only
on a truthy trimmed input; also toggles the streaming fields; the POST
body carries question and a stream field set to false; the success path
needs a 2xx status and a parsed body; otherwise the page apology. -/
def pageHandleSend (env : Option String) (s : AppState)
    (o : FetchOutcome AskBody) : List Event :=
  if jsTrim s.input = "" then []
  else
    [.appendMessage { role := "user", content := s.input },
     .setInput "",
     .setLoading true,
     .setStreaming true,
     .setCurrentStream "",
     .request { url := pageBackendUrl env ++ "/ask", method := "POST",
                body := [("question", .str s.input),
                         ("stream", .bool false)] }] ++
    (match o with
     | .response true (some b) =>
         [.appendMessage { role := "assistant", content := b.answer,
                           source := b.source }]
     | _ => [.appendMessage { role := "assistant",
                              content := pageApologyText }]) ++
    [.setLoading false, .setStreaming false, .setCurrentStream ""]

/-- Events of handleImageGeneration in the standalone page.tsx variant:
identical to the gated one except for the missing online gate and the
localhost default. -/
def pageHandleImageGeneration (env : Option String) (s : AppState)
    (o : FetchOutcome ImageBody) : List Event :=
  if jsTrim s.input = "" then []
  else
    [.appendMessage { role := "user",
                      content := "Generate image: " ++ s.input },
     .setInput "",
     .setLoading true,
     .request { url := pageBackendUrl env ++ "/generate-image",
                method := "POST",
                body := [("prompt", .str s.input),
                         ("size", .str "1024x1024")] }] ++
    (match o with
     | .response _ (some b) =>
         if b.success then
           [.appendMessage { role := "assistant",
                             content := "Here is your generated image:",
                             imageUrl := b.image_url,
                             source := b.source }]
         else
           [.appendMessage { role := "assistant",
                             content := imageApologyText }]
     | _ => [.appendMessage { role := "assistant",
                              content := imageApologyText }]) ++
    [.setLoading false]

/-- Events of handleSend in the part_000 variant: gated only on a truthy
trimmed input; the URL interpolates the raw environment value with no
fallback; response.ok is never inspected, so any response whose body
parses takes the success path; its assistant message has no source. -/
def part000HandleSend (env : Option String) (s : AppState)
    (o : FetchOutcome AskBody) : List Event :=
  if jsTrim s.input = "" then []
  else
    [.appendMessage { role := "user", content := s.input },
     .setInput "",
     .setLoading true,
     .request { url := jsInterp env ++ "/ask", method := "POST",
                body := [("question", .str s.input)] }] ++
    (match o with
     | .response _ (some b) =>
         [.appendMessage { role := "assistant", content := b.answer }]
     | _ => [.appendMessage { role := "assistant",
                              content := part000ApologyText }]) ++
    [.setLoading false]

/-- A JavaScript exception as the api.ts wrappers can produce one: the
fetch rejection, the response.json() rejection, or a thrown Error with
its message. -/
inductive JsError where
  | network
  | parse
  | error (msg : String)
deriving DecidableEq, Repr

/-- The askGenzAI wrapper of api.ts: POST the question to /ask against
the module-level base URL, throw Failed to get response when the status
is not 2xx, otherwise return the parsed JSON body as is.  The first
component is the request it issues, the second its result. -/
def askGenzAI {β : Type} (env : Option String) (question : String)
    (o : FetchOutcome β) : Request × Except JsError β :=
  ({ url := apiBackendURL env ++ "/ask", method := "POST",
     body := [("question", .str question)] },
   match o with
   | .netError => .error .network
   | .response ok body =>
       if ok = false then .error (.error "Failed to get response")
       else match body with
            | none => .error .parse
            | some b => .ok b)

/-- The askGenzAIFree wrapper of api.ts: POST the question to /ask/free
and return the parsed JSON body without ever inspecting response.ok. -/
def askGenzAIFree {β : Type} (env : Option String) (question : String)
    (o : FetchOutcome β) : Request × Except JsError β :=
  ({ url := apiBackendURL env ++ "/ask/free", method := "POST",
     body := [("question", .str question)] },
   match o with
   | .netError => .error .network
   | .response _ body =>
       match body with
       | none => .error .parse
       | some b => .ok b)

/-! ## Helper lemmas and sample states -/

/-- No event ever shrinks or edits the message log: one application of
an event leaves the log an initial segment of the new log. -/
theorem messages_isPrefix_applyEvent (s : AppState) (e : Event) :
    s.messages <+: (applyEvent s e).messages := by
  cases e <;> simp [applyEvent]

/-- Running any event list leaves the previous message log an initial
segment of the new one. -/
theorem messages_isPrefix_run (es : List Event) (s : AppState) :
    s.messages <+: (run s es).messages := by
  induction es generalizing s with
  | nil => exact List.prefix_rfl
  | cons e es ih =>
      exact (messages_isPrefix_applyEvent s e).trans (ih (applyEvent s e))

/-- A concrete online state with a non-blank draft, used to witness the
guarded theorems. -/
def sampleState : AppState :=
  { messages := [], input := "hi", isLoading := false,
    backendOnline := true, connectionTesting := false,
    streaming := false, currentStream := "" }

/-- The same state with the backend offline. -/
def offlineState : AppState :=
  { sampleState with backendOnline := false }

/-! ## Claims -/

/-- Claim C1: with a non-blank trimmed draft and the online flag true, a
200 response from /ask with answer 42 and source gpt grows the message
log by exactly two entries: the user entry carrying the sent draft,
then the assistant entry with content 42 and source gpt. -/
theorem C1_send_success_appends_two (env : Option String) (s : AppState)
    (h1 : jsTrim s.input ≠ "") (h2 : s.backendOnline = true) :
    (run s (handleSend env s
        (.response true (some { answer := "42", source := some "gpt" })))).messages
      = s.messages
        ++ [{ role := "user", content := s.input },
            { role := "assistant", content := "42", source := some "gpt" }] := by
  simp [handleSend, run, applyEvent, h1, h2]

/-- Witness for C1 at a concrete state. -/
theorem C1_send_success_appends_two_witness :
    jsTrim sampleState.input ≠ "" ∧ sampleState.backendOnline = true ∧
    (run sampleState (handleSend none sampleState
        (.response true (some { answer := "42", source := some "gpt" })))).messages
      = [{ role := "user", content := "hi" },
         { role := "assistant", content := "42", source := some "gpt" }] :=
  ⟨by decide, by decide,
   C1_send_success_appends_two none sampleState (by decide) (by decide)⟩

/-- Claim C2: with a non-blank trimmed draft and the online flag true, a
send whose fetch throws or whose status is not 2xx appends the user
entry and exactly one assistant entry carrying the fixed apology text,
independent of the failure, and finishes with the loading flag false. -/
theorem C2_send_failure_apology (env : Option String) (s : AppState)
    (o : FetchOutcome AskBody)
    (h1 : jsTrim s.input ≠ "") (h2 : s.backendOnline = true)
    (h3 : o.isFailure = true) :
    (run s (handleSend env s o)).messages
      = s.messages
        ++ [{ role := "user", content := s.input },
            { role := "assistant", content := chatApologyText }]
    ∧ (run s (handleSend env s o)).isLoading = false := by
  cases o with
  | netError => constructor <;> simp [handleSend, run, applyEvent, h1, h2]
  | response ok body =>
      cases ok with
      | false =>
          cases body <;>
            exact ⟨by simp [handleSend, run, applyEvent, h1, h2],
                   by simp [handleSend, run, applyEvent, h1, h2]⟩
      | true => simp [FetchOutcome.isFailure] at h3

/-- Witness for C2 at a concrete state and a network failure. -/
theorem C2_send_failure_apology_witness :
    jsTrim sampleState.input ≠ "" ∧ sampleState.backendOnline = true ∧
    (FetchOutcome.isFailure (β := AskBody) .netError = true) ∧
    ((run sampleState (handleSend none sampleState .netError)).messages
      = [{ role := "user", content := "hi" },
         { role := "assistant", content := chatApologyText }]
     ∧ (run sampleState (handleSend none sampleState .netError)).isLoading
        = false) :=
  ⟨by decide, by decide, by decide,
   C2_send_failure_apology none sampleState .netError (by decide) (by decide)
     (by decide)⟩

/-- Claim C3: the mount-time probe issues exactly one GET to the health
endpoint of the configured base, and the resulting online flag is true
precisely when a response arrived whose body parsed with the status
field equal to healthy; any other body, an unparsable body or a thrown
network error leaves it false. -/
theorem C3_probe_online_iff_healthy (env : Option String) (s : AppState)
    (o : FetchOutcome HealthBody) :
    ((run s (testBackendConnection env o)).backendOnline = true
       ↔ ∃ ok b, o = .response ok (some b) ∧ b.status = some "healthy")
    ∧ requestsOf (testBackendConnection env o)
        = [{ url := backendUrl env ++ "/health", method := "GET",
             body := [] }] := by
  cases o with
  | netError => constructor <;> simp [testBackendConnection, run, applyEvent, requestsOf]
  | response ok body =>
      cases body with
      | none => constructor <;> simp [testBackendConnection, run, applyEvent, requestsOf]
      | some b =>
          constructor
          · simp only [testBackendConnection, run, List.foldl, applyEvent]
            constructor
            · intro h
              exact ⟨ok, b, rfl, by simpa using h⟩
            · rintro ⟨ok2, b2, heq, hst⟩
              cases heq
              simpa using hst
          · simp [testBackendConnection, requestsOf]

/-- Claim C4: with the online flag false each gated handler performs no
event at all, hence issues no request and leaves every field of the
state unchanged. -/
theorem C4_offline_noop (env : Option String) (s : AppState)
    (oa : FetchOutcome AskBody) (oi : FetchOutcome ImageBody)
    (ot : FetchOutcome Unit) (text : String)
    (h : s.backendOnline = false) :
    (handleSend env s oa = [] ∧ run s (handleSend env s oa) = s
       ∧ requestsOf (handleSend env s oa) = [])
    ∧ (handleImageGeneration env s oi = []
       ∧ run s (handleImageGeneration env s oi) = s
       ∧ requestsOf (handleImageGeneration env s oi) = [])
    ∧ (handleTextToSpeech env s text ot = []
       ∧ run s (handleTextToSpeech env s text ot) = s
       ∧ requestsOf (handleTextToSpeech env s text ot) = []) := by
  refine ⟨⟨?_, ?_, ?_⟩, ⟨?_, ?_, ?_⟩, ⟨?_, ?_, ?_⟩⟩ <;>
    simp [handleSend, handleImageGeneration, handleTextToSpeech, h,
          run, requestsOf]

/-- Witness for C4 at a concrete offline state. -/
theorem C4_offline_noop_witness :
    offlineState.backendOnline = false ∧
    handleSend none offlineState .netError = [] ∧
    handleImageGeneration none offlineState .netError = [] ∧
    handleTextToSpeech none offlineState "hello" .netError = [] :=
  ⟨by decide,
   (C4_offline_noop none offlineState .netError .netError .netError "hello"
      (by decide)).1.1,
   (C4_offline_noop none offlineState .netError .netError .netError "hello"
      (by decide)).2.1.1,
   (C4_offline_noop none offlineState .netError .netError .netError "hello"
      (by decide)).2.2.1⟩

/-- Claim C5: when /generate-image answers with success false and an
error string e, both image handlers append the fixed image apology as
the assistant entry, for every e, every status flag and every other
field, so the raw error string never reaches the log. -/
theorem C5_image_failure_apology (env : Option String) (s : AppState)
    (ok : Bool) (e : String) (iu so : Option String)
    (h1 : jsTrim s.input ≠ "") (h2 : s.backendOnline = true) :
    (run s (handleImageGeneration env s
        (.response ok (some { success := false, image_url := iu,
                              source := so, error := some e })))).messages
      = s.messages
        ++ [{ role := "user", content := "Generate image: " ++ s.input },
            { role := "assistant", content := imageApologyText }]
    ∧ (run s (pageHandleImageGeneration env s
        (.response ok (some { success := false, image_url := iu,
                              source := so, error := some e })))).messages
      = s.messages
        ++ [{ role := "user", content := "Generate image: " ++ s.input },
            { role := "assistant", content := imageApologyText }] := by
  constructor <;>
    simp [handleImageGeneration, pageHandleImageGeneration, run,
          applyEvent, h1, h2]

/-- Witness for C5 at a concrete state and error string. -/
theorem C5_image_failure_apology_witness :
    jsTrim sampleState.input ≠ "" ∧ sampleState.backendOnline = true ∧
    (run sampleState (handleImageGeneration none sampleState
        (.response true (some { success := false,
                                error := some "bad prompt" })))).messages
      = [{ role := "user", content := "Generate image: hi" },
         { role := "assistant", content := imageApologyText }] :=
  ⟨by decide, by decide,
   (C5_image_failure_apology none sampleState true "bad prompt" none none
      (by decide) (by decide)).1⟩

/-- Counterexample to claim C6 as stated: the standalone page.tsx send
handler does not POST the body with the question field alone; at a
concrete call its one request to /ask carries a second field, stream
set to false. -/
theorem C6_counterexample_stream_field :
    requestsOf (pageHandleSend none sampleState .netError)
      = [{ url := "http://localhost:8000/ask", method := "POST",
           body := [("question", .str "hi"), ("stream", .bool false)] }]
    ∧ [("question", JsonVal.str "hi"), ("stream", JsonVal.bool false)]
        ≠ [("question", JsonVal.str "hi")] := by
  constructor
  · decide
  · decide

/-- Claim C6 as amended: in the gated component, handleSend performs
exactly, and in this order, the user-message append, the draft clear,
the loading set, the POST of the body holding only the question field
to /ask, the response append (the assistant entry built from answer and
source on a parsed 2xx body, else the fixed apology) and the loading
clear; the standalone page.tsx variant follows the same scheme but its
POST body carries question and additionally stream set to false. -/
theorem C6_send_step_order (env : Option String) (s : AppState)
    (o : FetchOutcome AskBody)
    (h1 : jsTrim s.input ≠ "") (h2 : s.backendOnline = true) :
    handleSend env s o
      = [.appendMessage { role := "user", content := s.input },
         .setInput "",
         .setLoading true,
         .request { url := backendUrl env ++ "/ask", method := "POST",
                    body := [("question", .str s.input)] }]
        ++ (match o with
            | .response true (some b) =>
                [Event.appendMessage
                  { role := "assistant", content := b.answer,
                    source := b.source }]
            | _ => [Event.appendMessage
                  { role := "assistant", content := chatApologyText }])
        ++ [.setLoading false]
    ∧ requestsOf (pageHandleSend env s o)
        = [{ url := pageBackendUrl env ++ "/ask", method := "POST",
             body := [("question", .str s.input),
                      ("stream", .bool false)] }] := by
  constructor
  · simp [handleSend, h1, h2]
  · cases o with
    | netError => simp [pageHandleSend, requestsOf, h1]
    | response ok body =>
        cases ok <;> cases body <;> simp [pageHandleSend, requestsOf, h1]

/-- Witness for the amended C6 at a concrete state and outcome. -/
theorem C6_send_step_order_witness :
    jsTrim sampleState.input ≠ "" ∧ sampleState.backendOnline = true ∧
    handleSend none sampleState .netError
      = [.appendMessage { role := "user", content := "hi" },
         .setInput "",
         .setLoading true,
         .request { url := "https://genz-ai-backend4.onrender.com/ask",
                    method := "POST",
                    body := [("question", .str "hi")] },
         .appendMessage { role := "assistant",
                          content := chatApologyText },
         .setLoading false] :=
  ⟨by decide, by decide,
   (C6_send_step_order none sampleState .netError (by decide)
      (by decide)).1⟩

/-- Claim C7: a draft that trims to the empty string makes every send
and image handler of every variant return before its first step: no
event, hence no append, no request and no state change. -/
theorem C7_blank_draft_noop (env : Option String) (s : AppState)
    (oa oa2 oa3 : FetchOutcome AskBody) (oi oi2 : FetchOutcome ImageBody)
    (h : jsTrim s.input = "") :
    (handleSend env s oa = [] ∧ run s (handleSend env s oa) = s
       ∧ requestsOf (handleSend env s oa) = [])
    ∧ (handleImageGeneration env s oi = []
       ∧ run s (handleImageGeneration env s oi) = s
       ∧ requestsOf (handleImageGeneration env s oi) = [])
    ∧ pageHandleSend env s oa2 = []
    ∧ pageHandleImageGeneration env s oi2 = []
    ∧ part000HandleSend env s oa3 = [] := by
  refine ⟨⟨?_, ?_, ?_⟩, ⟨?_, ?_, ?_⟩, ?_, ?_, ?_⟩ <;>
    simp [handleSend, handleImageGeneration, pageHandleSend,
          pageHandleImageGeneration, part000HandleSend, h, run,
          requestsOf]

/-- Witness for C7 at a whitespace-only draft. -/
theorem C7_blank_draft_noop_witness :
    jsTrim { sampleState with input := "   " }.input = "" ∧
    handleSend none { sampleState with input := "   " } .netError = [] ∧
    handleImageGeneration none { sampleState with input := "   " }
      .netError = [] :=
  ⟨by decide,
   (C7_blank_draft_noop none { sampleState with input := "   " }
      .netError .netError .netError .netError .netError (by decide)).1.1,
   (C7_blank_draft_noop none { sampleState with input := "   " }
      .netError .netError .netError .netError .netError
      (by decide)).2.1.1⟩

/-- Claim C8: the message log is append-only: across every handler of
every variant and the connection probe, the previous log is an initial
segment of the new one. -/
theorem C8_messages_append_only (env : Option String) (s : AppState)
    (oa oa2 oa3 : FetchOutcome AskBody) (oi oi2 : FetchOutcome ImageBody)
    (ot : FetchOutcome Unit) (oh : FetchOutcome HealthBody)
    (text : String) :
    s.messages <+: (run s (handleSend env s oa)).messages
    ∧ s.messages <+: (run s (handleImageGeneration env s oi)).messages
    ∧ s.messages <+: (run s (handleTextToSpeech env s text ot)).messages
    ∧ s.messages <+: (run s (testBackendConnection env oh)).messages
    ∧ s.messages <+: (run s (pageHandleSend env s oa2)).messages
    ∧ s.messages <+: (run s (pageHandleImageGeneration env s oi2)).messages
    ∧ s.messages <+: (run s (part000HandleSend env s oa3)).messages := by
  refine ⟨?_, ?_, ?_, ?_, ?_, ?_, ?_⟩ <;> exact messages_isPrefix_run _ _

/-- The requests of a gated send, once the gate passes. -/
theorem requestsOf_handleSend (env : Option String) (s : AppState)
    (o : FetchOutcome AskBody)
    (h1 : jsTrim s.input ≠ "") (h2 : s.backendOnline = true) :
    requestsOf (handleSend env s o)
      = [{ url := backendUrl env ++ "/ask", method := "POST",
           body := [("question", .str s.input)] }] := by
  cases o with
  | netError => simp [handleSend, requestsOf, h1, h2]
  | response ok body =>
      cases ok <;> cases body <;> simp [handleSend, requestsOf, h1, h2]

/-- The requests of a gated image generation, once the gate passes. -/
theorem requestsOf_handleImageGeneration (env : Option String)
    (s : AppState) (o : FetchOutcome ImageBody)
    (h1 : jsTrim s.input ≠ "") (h2 : s.backendOnline = true) :
    requestsOf (handleImageGeneration env s o)
      = [{ url := backendUrl env ++ "/generate-image", method := "POST",
           body := [("prompt", .str s.input),
                    ("size", .str "1024x1024")] }] := by
  cases o with
  | netError => simp [handleImageGeneration, requestsOf, h1, h2]
  | response ok body =>
      cases ok <;> cases body <;>
        simp [handleImageGeneration, requestsOf, h1, h2]
      all_goals split <;> simp [requestsOf]

/-- The requests of a gated text-to-speech call, once online. -/
theorem requestsOf_handleTextToSpeech (env : Option String)
    (s : AppState) (text : String) (o : FetchOutcome Unit)
    (h2 : s.backendOnline = true) :
    requestsOf (handleTextToSpeech env s text o)
      = [{ url := backendUrl env ++ "/text-to-speech", method := "POST",
           body := [("text", .str text),
                    ("voice_id", .str "Rachel")] }] := by
  cases o with
  | netError => simp [handleTextToSpeech, requestsOf, h2]
  | response ok body =>
      cases ok <;> simp [handleTextToSpeech, requestsOf, h2]

/-- The requests of the page-variant image generation, once the gate
passes. -/
theorem requestsOf_pageHandleImageGeneration (env : Option String)
    (s : AppState) (o : FetchOutcome ImageBody)
    (h1 : jsTrim s.input ≠ "") :
    requestsOf (pageHandleImageGeneration env s o)
      = [{ url := pageBackendUrl env ++ "/generate-image",
           method := "POST",
           body := [("prompt", .str s.input),
                    ("size", .str "1024x1024")] }] := by
  cases o with
  | netError => simp [pageHandleImageGeneration, requestsOf, h1]
  | response ok body =>
      cases ok <;> cases body <;>
        simp [pageHandleImageGeneration, requestsOf, h1]
      all_goals split <;> simp [requestsOf]

/-- The requests of the part_000 send, once the gate passes. -/
theorem requestsOf_part000HandleSend (env : Option String)
    (s : AppState) (o : FetchOutcome AskBody)
    (h1 : jsTrim s.input ≠ "") :
    requestsOf (part000HandleSend env s o)
      = [{ url := jsInterp env ++ "/ask", method := "POST",
           body := [("question", .str s.input)] }] := by
  cases o with
  | netError => simp [part000HandleSend, requestsOf, h1]
  | response ok body =>
      cases ok <;> cases body <;> simp [part000HandleSend, requestsOf, h1]

/-- Counterexample to claim C9 as stated: with the environment value
unset, the part_000 send handler interpolates the undefined value into
the URL and issues its POST against undefined/ask, which is not an
absolute URL of either hardcoded default host. -/
theorem C9_counterexample_no_fallback :
    requestsOf (part000HandleSend none sampleState .netError)
      = [{ url := "undefined/ask", method := "POST",
           body := [("question", .str "hi")] }]
    ∧ "undefined/ask" ≠ apiBackendURL none ++ "/ask"
    ∧ "undefined/ask" ≠ backendUrl none ++ "/ask" := by
  refine ⟨by decide, by decide, by decide⟩

/-- The one request of the connection probe. -/
theorem requestsOf_testBackendConnection (env : Option String)
    (o : FetchOutcome HealthBody) :
    requestsOf (testBackendConnection env o)
      = [{ url := backendUrl env ++ "/health", method := "GET",
           body := [] }] := by
  cases o with
  | netError => simp [testBackendConnection, requestsOf]
  | response ok body =>
      cases body <;> simp [testBackendConnection, requestsOf]

/-- The requests of the page-variant send, once the gate passes. -/
theorem requestsOf_pageHandleSend (env : Option String) (s : AppState)
    (o : FetchOutcome AskBody) (h1 : jsTrim s.input ≠ "") :
    requestsOf (pageHandleSend env s o)
      = [{ url := pageBackendUrl env ++ "/ask", method := "POST",
           body := [("question", .str s.input),
                    ("stream", .bool false)] }] := by
  cases o with
  | netError => simp [pageHandleSend, requestsOf, h1]
  | response ok body =>
      cases ok <;> cases body <;> simp [pageHandleSend, requestsOf, h1]

/-- Claim C9 as amended: every request of the api.ts wrappers, of the
gated component and of the standalone page.tsx variant targets the
environment-provided base URL with a hardcoded default host as the
fallback when the value is unset or empty, composed with the endpoint
path; the one exception is the part_000 send, whose /ask request
interpolates the raw environment value with no fallback. -/
theorem C9_base_url_resolution (env : Option String) (s : AppState)
    (oa oa2 oa3 : FetchOutcome AskBody) (oi oi2 : FetchOutcome ImageBody)
    (ot : FetchOutcome Unit) (oh : FetchOutcome HealthBody)
    (text q : String) {β γ : Type} (of1 : FetchOutcome β)
    (of2 : FetchOutcome γ)
    (h1 : jsTrim s.input ≠ "") (h2 : s.backendOnline = true) :
    (askGenzAI env q of1).1.url = jsOr env "http://localhost:8000" ++ "/ask"
    ∧ (askGenzAIFree env q of2).1.url
        = jsOr env "http://localhost:8000" ++ "/ask/free"
    ∧ (requestsOf (handleSend env s oa)).map Request.url
        = [jsOr env "https://genz-ai-backend4.onrender.com" ++ "/ask"]
    ∧ (requestsOf (handleImageGeneration env s oi)).map Request.url
        = [jsOr env "https://genz-ai-backend4.onrender.com"
            ++ "/generate-image"]
    ∧ (requestsOf (handleTextToSpeech env s text ot)).map Request.url
        = [jsOr env "https://genz-ai-backend4.onrender.com"
            ++ "/text-to-speech"]
    ∧ (requestsOf (testBackendConnection env oh)).map Request.url
        = [jsOr env "https://genz-ai-backend4.onrender.com" ++ "/health"]
    ∧ (requestsOf (pageHandleSend env s oa2)).map Request.url
        = [jsOr env "http://localhost:8000" ++ "/ask"]
    ∧ (requestsOf (pageHandleImageGeneration env s oi2)).map Request.url
        = [jsOr env "http://localhost:8000" ++ "/generate-image"]
    ∧ (requestsOf (part000HandleSend env s oa3)).map Request.url
        = [jsInterp env ++ "/ask"] := by
  refine ⟨rfl, rfl, ?_, ?_, ?_, ?_, ?_, ?_, ?_⟩
  · rw [requestsOf_handleSend env s oa h1 h2]; rfl
  · rw [requestsOf_handleImageGeneration env s oi h1 h2]; rfl
  · rw [requestsOf_handleTextToSpeech env s text ot h2]; rfl
  · rw [requestsOf_testBackendConnection env oh]; rfl
  · rw [requestsOf_pageHandleSend env s oa2 h1]; rfl
  · rw [requestsOf_pageHandleImageGeneration env s oi2 h1]; rfl
  · rw [requestsOf_part000HandleSend env s oa3 h1]; rfl

/-- Witness for the amended C9 at a concrete state, with the value set
and unset. -/
theorem C9_base_url_resolution_witness :
    jsTrim sampleState.input ≠ "" ∧ sampleState.backendOnline = true ∧
    (askGenzAI (β := AskBody) none "q" .netError).1.url
      = "http://localhost:8000/ask" ∧
    (requestsOf (handleSend none sampleState .netError)).map Request.url
      = ["https://genz-ai-backend4.onrender.com/ask"] ∧
    (requestsOf (part000HandleSend none sampleState .netError)).map
        Request.url = ["undefined/ask"] := by
  have h := C9_base_url_resolution none sampleState .netError .netError
    .netError .netError .netError .netError .netError "t" "q"
    (β := AskBody) (γ := AskBody) .netError .netError
    (by decide) (by decide)
  exact ⟨by decide, by decide, h.1, h.2.2.1, h.2.2.2.2.2.2.2.2⟩

/-- Claim C10: with a received response whose body parses, askGenzAI
throws the fixed Failed to get response error exactly on a non-2xx
status and returns the parsed body on a 2xx one, while askGenzAIFree
never inspects the ok flag: it returns the parsed body for any status
and throws only on a fetch rejection or a parse failure. -/
theorem C10_ask_wrappers_error_contract {β : Type} (env : Option String)
    (q : String) (ok : Bool) (b : β) (body : Option β) :
    (askGenzAI env q (.response ok (some b))).2
      = (if ok then .ok b else .error (.error "Failed to get response"))
    ∧ (askGenzAI (β := β) env q (.response ok none)).2
      = (if ok then .error .parse
         else .error (.error "Failed to get response"))
    ∧ (askGenzAI (β := β) env q .netError).2 = .error .network
    ∧ (askGenzAIFree env q (.response ok body)).2
      = (askGenzAIFree env q (.response true body)).2
    ∧ (askGenzAIFree env q (.response ok (some b))).2 = .ok b
    ∧ (askGenzAIFree (β := β) env q (.response ok none)).2 = .error .parse
    ∧ (askGenzAIFree (β := β) env q .netError).2 = .error .network := by
  cases ok <;>
    exact ⟨rfl, rfl, rfl, rfl, rfl, rfl, rfl⟩
